import Mathlib

/-!
Shallow embedding of the painter timesheet app (src/shared/utils.py,
src/painter_app/pages/daily_entry.py) and proofs about it.

Python `datetime.time` values produced by `parse_time`/`st.time_input` are
minute-granularity clock times; comparison of such values is lexicographic on
(hour, minute), which coincides with comparison of minutes-since-midnight.
Times stored as "HH:MM" strings in the database are in bijection with these
values, so stored time columns are modelled directly as `Time`.
-/

namespace PatiApp

/-- Python `datetime.time` at minute granularity: the constructor enforces
`0 ≤ hour < 24` and `0 ≤ minute < 60`. -/
structure Time where
  hour : Nat
  minute : Nat
  hour_lt : hour < 24
  minute_lt : minute < 60

/-- Minutes since midnight, as in the `time_to_minutes` helpers of
`calculate_break_deduction` / `calculate_hours` (utils.py lines 52-53, 73-74). -/
def Time.toMinutes (t : Time) : Nat := t.hour * 60 + t.minute

instance : LT Time := ⟨fun a b => a.toMinutes < b.toMinutes⟩

instance : LE Time := ⟨fun a b => a.toMinutes ≤ b.toMinutes⟩

instance (a b : Time) : Decidable (a < b) :=
  inferInstanceAs (Decidable (a.toMinutes < b.toMinutes))

instance (a b : Time) : Decidable (a ≤ b) :=
  inferInstanceAs (Decidable (a.toMinutes ≤ b.toMinutes))

instance : DecidableEq Time := fun a b =>
  if h : a.hour = b.hour ∧ a.minute = b.minute then
    .isTrue (by cases a; cases b; simp_all)
  else
    .isFalse (by intro he; subst he; exact h ⟨rfl, rfl⟩)

theorem Time.lt_def (a b : Time) : (a < b) = (a.toMinutes < b.toMinutes) := rfl

theorem Time.le_def (a b : Time) : (a ≤ b) = (a.toMinutes ≤ b.toMinutes) := rfl

theorem Time.toMinutes_lt_1440 (t : Time) : t.toMinutes < 1440 := by
  have h1 := t.hour_lt
  have h2 := t.minute_lt
  simp only [Time.toMinutes]
  omega

/-- Embedding of `validate_times` (utils.py lines 11-44).  Python truthiness of
an `Optional[time]` is `is not None` (`time` objects are always truthy), so
`not break_start and not break_end` means both absent and
`bool(break_start) != bool(break_end)` means exactly one present.  Each Python
comparison `a >= b` is written as `b ≤ a`. -/
def validate_times (work_start : Time) (break_start break_end : Option Time)
    (work_end : Time) : Bool × String :=
  if work_end ≤ work_start then
    (false, "Work start time must be before work end time")
  else if break_start.isNone && break_end.isNone then
    (true, "")
  else if break_start.isSome ≠ break_end.isSome then
    (false, "Both break start and end times must be set")
  else
    match break_start, break_end with
    | some bs, some be =>
      if be ≤ bs then
        (false, "Break start time must be before break end time")
      else if bs ≤ work_start then
        (false, "Break cannot start before work starts")
      else if work_end ≤ be then
        (false, "Break cannot end after work ends")
      else
        (true, "")
    | _, _ => (true, "")

/-- Embedding of `calculate_break_deduction` (utils.py lines 50-62). -/
def calculate_break_deduction (break_start break_end : Time) : Int :=
  if ((break_end.toMinutes : Int) - (break_start.toMinutes : Int)) ≤ 30 then 0
  else 30

/-- Embedding of Python `round(total_minutes / 60, 2)` (utils.py line 84) over
the exact rationals.  `total_minutes * 100 / 60 = 5 * total_minutes / 3` is
never a half-integer (`10 * m = 6 * k + 3` has no integer solution), so Python
round-half-to-even and Mathlib `round` (half-up) agree on every integer input,
and the tie-free margin of `1/600` from the grid dwarfs double-precision error
of `total_minutes / 60`. -/
def round2of60 (total_minutes : Int) : ℚ :=
  ((round ((total_minutes : ℚ) * 100 / 60) : ℤ) : ℚ) / 100

/-- Embedding of `calculate_hours` (utils.py lines 64-84): subtract the actual
break duration from the worked minutes when both break fields are present, and
report `calculate_break_deduction` alongside. -/
def calculate_hours (work_start : Time) (break_start break_end : Option Time)
    (work_end : Time) : ℚ × Int :=
  match break_start, break_end with
  | some bs, some be =>
    (round2of60 (((work_end.toMinutes : Int) - (work_start.toMinutes : Int))
        - ((be.toMinutes : Int) - (bs.toMinutes : Int))),
     calculate_break_deduction bs be)
  | _, _ =>
    (round2of60 ((work_end.toMinutes : Int) - (work_start.toMinutes : Int)), 0)

/-- Embedding of `calculate_break_time` (daily_entry.py lines 235-259).  The
`time(x // 60, x % 60)` conversions need the minute counts to stay below 1440;
in the reachable branch `break_end_minutes < end_minutes < 1440`, so the Python
constructor never raises and the embedded constructions carry those proofs.
Python `//` on the non-negative values of that branch is `Nat` division. -/
def calculate_break_time (start_time end_time : Time) :
    Option Time × Option Time :=
  if h : ((end_time.toMinutes : Int) - (start_time.toMinutes : Int)) < 360 then
    (none, none)
  else
    have he := end_time.toMinutes_lt_1440
    (some ⟨(start_time.toMinutes
              + (end_time.toMinutes - start_time.toMinutes) / 2 - 30) / 60,
           (start_time.toMinutes
              + (end_time.toMinutes - start_time.toMinutes) / 2 - 30) % 60,
           by omega, by omega⟩,
     some ⟨(start_time.toMinutes
              + (end_time.toMinutes - start_time.toMinutes) / 2 + 30) / 60,
           (start_time.toMinutes
              + (end_time.toMinutes - start_time.toMinutes) / 2 + 30) % 60,
           by omega, by omega⟩)

def t0700 : Time := ⟨7, 0, by omega, by omega⟩

def t0800 : Time := ⟨8, 0, by omega, by omega⟩

def t1200 : Time := ⟨12, 0, by omega, by omega⟩

def t1245 : Time := ⟨12, 45, by omega, by omega⟩

def t1500 : Time := ⟨15, 0, by omega, by omega⟩

def t1700 : Time := ⟨17, 0, by omega, by omega⟩

/-! ### Storage model

Modelled from the spec: the repository's `database/schema.sql` is referenced by
`shared/database.py` but is not under src/.  The table layout follows spec §6:
`locations(id, user_id, name, address, active)`,
`daily_entries(id, user_id, entry_date UNIQUE per user, start_time, end_time,
break_start, break_end, updated_at)`,
`daily_locations(entry_id, location_id, sequence_order,
UNIQUE(entry_id, sequence_order))`.  Autoincrement row ids are modelled by
counters, `DATE('now')` by a `today` field and `CURRENT_TIMESTAMP` by `now`.
Each Python operation opens a connection, mutates, and either commits or rolls
back; it is embedded as a function from the store to (result, store), where
every failing path returns the store unchanged (rollback / close-without-commit
discards the open transaction). -/

/-- Modelled from the spec: a row of the `locations` table (spec §6). -/
structure LocationRow where
  id : Nat
  user_id : Nat
  name : String
  address : Option String
  active : Bool
deriving DecidableEq

/-- Modelled from the spec: a row of the `daily_entries` table (spec §6). -/
structure DailyEntryRow where
  id : Nat
  user_id : Nat
  entry_date : Nat
  start_time : Time
  end_time : Time
  break_start : Option Time
  break_end : Option Time
  updated_at : Nat
deriving DecidableEq

/-- Modelled from the spec: a row of the `daily_locations` table (spec §6). -/
structure DailyLocationRow where
  entry_id : Nat
  location_id : Nat
  sequence_order : Nat
deriving DecidableEq

/-- Modelled from the spec: the durable row store of spec §6, plus the
autoincrement counters and the server-side clock it exposes. -/
structure DB where
  locations : List LocationRow
  daily_entries : List DailyEntryRow
  daily_locations : List DailyLocationRow
  next_location_id : Nat
  next_entry_id : Nat
  today : Nat
  now : Nat
deriving DecidableEq

/-- SQLite `LOWER()` folds ASCII `A`-`Z` only; this embeds the comparison used
by the duplicate check of `add_location` (daily_entry.py line 60). -/
def sqlLower (s : String) : String :=
  String.mk (s.toList.map fun c =>
    if 'A' ≤ c ∧ c ≤ 'Z' then Char.ofNat (c.toNat + 32) else c)

/-- Embedding of Python `str.strip()`: drop leading and trailing whitespace. -/
def pyStrip (s : String) : String :=
  String.mk (((s.toList.dropWhile Char.isWhitespace).reverse.dropWhile
    Char.isWhitespace).reverse)

/-- Embedding of `sanitize_input` (daily_entry.py lines 27-34): keep
alphanumerics and ` -_.,()#`, truncate to `max_length`, strip whitespace.
`Char.isAlphanum` is the ASCII core of Python `str.isalnum`; the inputs the
claims quantify over are ASCII. -/
def sanitize_input (text : String) (max_length : Nat) : String :=
  if text = "" then ""
  else
    pyStrip (String.mk ((text.toList.filter fun c =>
      c.isAlphanum || " -_.,()#".toList.contains c).take max_length))

/-- Embedding of `add_location` (daily_entry.py lines 36-91).  The duplicate
check, the 100-location cap and the insert run inside one transaction; the
early `return`s leave the store untouched. -/
def add_location (user_id : Nat) (name : String) (address : Option String)
    (db : DB) : (Bool × String) × DB :=
  if name = "" then ((false, "Location name cannot be empty"), db)
  else if sanitize_input name 50 = "" then
    ((false, "Location name contains no valid characters"), db)
  else if db.locations.any (fun r =>
      r.user_id == user_id
        && sqlLower r.name == sqlLower (sanitize_input name 50)
        && r.active) then
    ((false, s!"Location \x27{sanitize_input name 50}\x27 already exists"), db)
  else if 100 ≤ (db.locations.filter fun r =>
      r.user_id == user_id && r.active).length then
    ((false, "Maximum number of locations (100) reached"), db)
  else
    ((true, s!"Location \x27{sanitize_input name 50}\x27 added successfully"),
     { db with
        locations := db.locations
          ++ [⟨db.next_location_id, user_id, sanitize_input name 50,
               address.map (fun a => sanitize_input a 100), true⟩],
        next_location_id := db.next_location_id + 1 })

/-- Shape of the dict built by `get_todays_entry` for one joined location row
(daily_entry.py lines 112-122). -/
structure TodayLocation where
  id : Nat
  name : String
  address : Option String
  sequence_order : Nat
deriving DecidableEq

/-- Shape of the dict returned by `get_todays_entry` (daily_entry.py lines
124-129): exactly the keys `id`, `start_time`, `end_time`, `locations` — the
`break_start` / `break_end` columns fetched by the SELECT are not included. -/
structure TodayEntry where
  id : Nat
  start_time : Time
  end_time : Time
  locations : List TodayLocation
deriving DecidableEq

/-- Insertion step for sorting by `sequence_order` (the `ORDER BY` of the
location query in `get_todays_entry`). -/
def insertBySeq (r : DailyLocationRow) :
    List DailyLocationRow → List DailyLocationRow
  | [] => [r]
  | x :: xs =>
    if r.sequence_order ≤ x.sequence_order then r :: x :: xs
    else x :: insertBySeq r xs

/-- Sort by `sequence_order`, embedding `ORDER BY dl.sequence_order`. -/
def sortBySeq : List DailyLocationRow → List DailyLocationRow
  | [] => []
  | x :: xs => insertBySeq x (sortBySeq xs)

/-- Embedding of `get_todays_entry` (daily_entry.py lines 93-131): the first
`daily_entries` row for (user, server-side today), joined with its location
rows ordered by `sequence_order`; the inner `JOIN locations` drops sequence
rows whose location id has no row. -/
def get_todays_entry (user_id : Nat) (db : DB) : Option TodayEntry :=
  match db.daily_entries.find? (fun r =>
      r.user_id == user_id && r.entry_date == db.today) with
  | none => none
  | some entry =>
    some ⟨entry.id, entry.start_time, entry.end_time,
      (sortBySeq (db.daily_locations.filter fun r =>
          r.entry_id == entry.id)).filterMap fun dl =>
        (db.locations.find? fun l => l.id == dl.location_id).map fun l =>
          ⟨l.id, l.name, l.address, dl.sequence_order⟩⟩

/-- Embedding of the per-row INSERT loop of `save_entry` (daily_entry.py lines
207-219): `enumerate(location_ids, 1)` inserts 1-based positions; the
`UNIQUE(entry_id, sequence_order)` constraint (spec §6) is checked before each
insert and a violation surfaces the caught `IntegrityError` message. -/
def insert_daily_locations (entry_id : Nat) (ids : List Nat) (order : Nat)
    (rows : List DailyLocationRow) : Except String (List DailyLocationRow) :=
  match ids with
  | [] => .ok rows
  | loc_id :: rest =>
    if rows.any (fun r =>
        r.entry_id == entry_id && r.sequence_order == order) then
      .error s!"Location sequence order {order} is already used"
    else
      insert_daily_locations entry_id rest (order + 1)
        (rows ++ [⟨entry_id, loc_id, order⟩])

/-- Embedding of `save_entry` (daily_entry.py lines 146-233).  Order of the
code: validate times, reject an empty id list, count the active `locations`
rows with `id IN (...)` (each table row counted once, so a duplicated id makes
the count fall short), then in one transaction upsert the `daily_entries` row
for (user, today), delete the entry's `daily_locations` rows and reinsert
them; any failure inside the transaction rolls the store back. -/
def save_entry (user_id : Nat) (start_time end_time : Time)
    (break_start break_end : Option Time) (location_ids : List Nat)
    (db : DB) : (Bool × String) × DB :=
  if (validate_times start_time break_start break_end end_time).1 = false then
    ((false, (validate_times start_time break_start break_end end_time).2), db)
  else if location_ids = [] then
    ((false, "At least one location must be selected"), db)
  else if (db.locations.filter fun r =>
      location_ids.contains r.id && r.active).length ≠ location_ids.length then
    ((false, "One or more selected locations are inactive or do not exist"), db)
  else
    match db.daily_entries.find? (fun r =>
        r.user_id == user_id && r.entry_date == db.today) with
    | some old =>
      match insert_daily_locations old.id location_ids 1
          (db.daily_locations.filter fun r => r.entry_id != old.id) with
      | .ok rows =>
        ((true, "Entry saved successfully"),
         { db with
            daily_entries := db.daily_entries.map fun r =>
              if r.id = old.id then
                { r with
                    start_time := start_time, end_time := end_time,
                    break_start := break_start, break_end := break_end,
                    updated_at := db.now }
              else r,
            daily_locations := rows })
      | .error msg => ((false, msg), db)
    | none =>
      match insert_daily_locations db.next_entry_id location_ids 1
          (db.daily_locations.filter fun r => r.entry_id != db.next_entry_id) with
      | .ok rows =>
        ((true, "Entry saved successfully"),
         { db with
            daily_entries := db.daily_entries
              ++ [⟨db.next_entry_id, user_id, db.today, start_time, end_time,
                   break_start, break_end, db.now⟩],
            daily_locations := rows,
            next_entry_id := db.next_entry_id + 1 })
      | .error msg => ((false, msg), db)

/-- An empty store. -/
def db0 : DB := ⟨[], [], [], 1, 1, 0, 0⟩

/-- A store holding two active locations with ids 3 and 5 for user 7. -/
def db4 : DB :=
  ⟨[⟨3, 7, "Site A", none, true⟩, ⟨5, 7, "Site B", none, true⟩],
   [], [], 6, 1, 0, 0⟩

/-! ### Claims -/

/-- C1: for every valid pair `workStart < workEnd`, `calculate_hours` returns
the minutes `workEnd - workStart` minus the actual break duration when a break
is present (nothing subtracted otherwise), rounded via
`round(total_minutes / 60, 2)`; the deduction is `0` with no break or a break
of at most 30 minutes and exactly `30` for a longer break, and is never also
subtracted from the worked minutes; in particular 08:00-17:00 with break
12:00-12:45 yields `(8.25, 30)`. -/
theorem calculate_hours_correct :
    (∀ ws we : Time, ws < we →
      calculate_hours ws none none we
        = (round2of60 ((we.toMinutes : Int) - (ws.toMinutes : Int)), 0))
  ∧ (∀ ws bs be we : Time, ws < we →
      calculate_hours ws (some bs) (some be) we
        = (round2of60 (((we.toMinutes : Int) - (ws.toMinutes : Int))
            - ((be.toMinutes : Int) - (bs.toMinutes : Int))),
           if ((be.toMinutes : Int) - (bs.toMinutes : Int)) ≤ 30 then 0
           else 30))
  ∧ calculate_hours t0800 (some t1200) (some t1245) t1700 = (33/4, 30) := by
  refine ⟨fun ws we _ => rfl, fun ws bs be we _ => rfl, ?_⟩
  rw [show calculate_hours t0800 (some t1200) (some t1245) t1700
    = (round2of60 (((t1700.toMinutes : Int) - (t0800.toMinutes : Int))
        - ((t1245.toMinutes : Int) - (t1200.toMinutes : Int))),
       calculate_break_deduction t1200 t1245) from rfl]
  have h1 : (((t1700.toMinutes : Int) - (t0800.toMinutes : Int))
      - ((t1245.toMinutes : Int) - (t1200.toMinutes : Int))) = 495 := by
    norm_num [Time.toMinutes, t0800, t1200, t1245, t1700]
  have h2 : round2of60 495 = 33/4 := by
    rw [round2of60, round_eq]
    norm_num
  have h3 : calculate_break_deduction t1200 t1245 = 30 := by
    rw [calculate_break_deduction]
    norm_num [Time.toMinutes, t1200, t1245]
  rw [h1, h2, h3]

/-- Witness for C1 at 07:00-15:00 with no break. -/
theorem calculate_hours_correct_witness :
    calculate_hours t0700 none none t1500
      = (round2of60 ((t1500.toMinutes : Int) - (t0700.toMinutes : Int)), 0) :=
  calculate_hours_correct.1 t0700 t1500 (by decide)

/-- C2: `validate_times` checks its rules in a fixed priority order —
`workStart ≥ workEnd`, then exactly-one-break-field-set, then
`breakStart ≥ breakEnd`, then `breakStart ≤ workStart`, then
`breakEnd ≥ workEnd` — and reports exactly the reason of the first violated
rule; with both break fields absent and `workStart < workEnd` it succeeds. -/
theorem validate_times_first_violation (ws : Time) (bs be : Option Time)
    (we : Time) :
    (we ≤ ws →
      validate_times ws bs be we
        = (false, "Work start time must be before work end time"))
  ∧ (ws < we → bs = none → be = none →
      validate_times ws bs be we = (true, ""))
  ∧ (ws < we → bs.isSome ≠ be.isSome →
      validate_times ws bs be we
        = (false, "Both break start and end times must be set"))
  ∧ (∀ b1 b2 : Time, bs = some b1 → be = some b2 → ws < we →
      (b2 ≤ b1 →
        validate_times ws bs be we
          = (false, "Break start time must be before break end time"))
    ∧ (b1 < b2 → b1 ≤ ws →
        validate_times ws bs be we
          = (false, "Break cannot start before work starts"))
    ∧ (b1 < b2 → ws < b1 → we ≤ b2 →
        validate_times ws bs be we
          = (false, "Break cannot end after work ends"))
    ∧ (b1 < b2 → ws < b1 → b2 < we →
        validate_times ws bs be we = (true, ""))) := by
  simp only [Time.lt_def, Time.le_def]
  refine ⟨?_, ?_, ?_, ?_⟩
  · intro h
    simp [validate_times, Time.le_def, h]
  · rintro h rfl rfl
    simp [validate_times, Time.le_def, Nat.not_le.mpr h]
  · intro h hne
    have hfalse : (bs.isNone && be.isNone) = false := by
      cases bs <;> cases be <;> simp_all
    simp [validate_times, Time.le_def, Nat.not_le.mpr h, hfalse, hne]
  · rintro b1 b2 rfl rfl h
    refine ⟨?_, ?_, ?_, ?_⟩
    · intro hge
      simp [validate_times, Time.le_def, Nat.not_le.mpr h, hge]
    · intro h2 h3
      simp [validate_times, Time.le_def, Nat.not_le.mpr h, Nat.not_le.mpr h2,
        h3]
    · intro h2 h3 h4
      simp [validate_times, Time.le_def, Nat.not_le.mpr h, Nat.not_le.mpr h2,
        Nat.not_le.mpr h3, h4]
    · intro h2 h3 h4
      simp [validate_times, Time.le_def, Nat.not_le.mpr h, Nat.not_le.mpr h2,
        Nat.not_le.mpr h3, Nat.not_le.mpr h4]

/-- Witness for C2: both break fields absent and 08:00 < 17:00 succeeds. -/
theorem validate_times_first_violation_witness :
    validate_times t0800 none none t1700 = (true, "") :=
  (validate_times_first_violation t0800 none none t1700).2.1 (by decide) rfl
    rfl

/-- Helper: `validate_times` succeeds when work and break minutes are strictly
nested. -/
theorem validate_times_ok (ws b1 b2 we : Time)
    (h1 : ws.toMinutes < we.toMinutes) (h2 : b1.toMinutes < b2.toMinutes)
    (h3 : ws.toMinutes < b1.toMinutes) (h4 : b2.toMinutes < we.toMinutes) :
    validate_times ws (some b1) (some b2) we = (true, "") := by
  simp [validate_times, Time.le_def, Nat.not_le.mpr h1, Nat.not_le.mpr h2,
    Nat.not_le.mpr h3, Nat.not_le.mpr h4]

/-- C8: `calculate_break_time` suggests no break for a duration under 360
minutes, and otherwise a 60-minute window centred on the workday midpoint
`workStart + (workEnd - workStart) / 2`. -/
theorem calculate_break_time_midpoint (ws we : Time) :
    (((we.toMinutes : Int) - (ws.toMinutes : Int)) < 360 →
      calculate_break_time ws we = (none, none))
  ∧ (360 ≤ ((we.toMinutes : Int) - (ws.toMinutes : Int)) →
      ∃ b1 b2 : Time, calculate_break_time ws we = (some b1, some b2)
        ∧ b1.toMinutes = ws.toMinutes + (we.toMinutes - ws.toMinutes) / 2 - 30
        ∧ b2.toMinutes = ws.toMinutes + (we.toMinutes - ws.toMinutes) / 2 + 30
        ∧ b2.toMinutes - b1.toMinutes = 60) := by
  constructor
  · intro h
    simp only [calculate_break_time]
    rw [dif_pos h]
  · intro h
    have hwe := we.toMinutes_lt_1440
    simp only [calculate_break_time]
    rw [dif_neg (by omega)]
    refine ⟨_, _, rfl, ?_, ?_, ?_⟩
    · simp only [Time.toMinutes] at h hwe ⊢
      omega
    · simp only [Time.toMinutes] at h hwe ⊢
      omega
    · simp only [Time.toMinutes] at h hwe ⊢
      omega

/-- Witness for C8 at 08:00-17:00 (540 minutes). -/
theorem calculate_break_time_midpoint_witness :
    (360 : Int) ≤ ((t1700.toMinutes : Int) - (t0800.toMinutes : Int))
  ∧ ∃ b1 b2 : Time, calculate_break_time t0800 t1700 = (some b1, some b2)
      ∧ b1.toMinutes
          = t0800.toMinutes + (t1700.toMinutes - t0800.toMinutes) / 2 - 30
      ∧ b2.toMinutes
          = t0800.toMinutes + (t1700.toMinutes - t0800.toMinutes) / 2 + 30
      ∧ b2.toMinutes - b1.toMinutes = 60 :=
  ⟨by decide, (calculate_break_time_midpoint t0800 t1700).2 (by decide)⟩

/-- C10: for a work window of at least 360 minutes the suggested break window
always passes `validate_times`: it starts strictly after the work start, ends
strictly after it starts, and ends strictly before the work end. -/
theorem break_suggestion_passes_validation (ws we : Time)
    (h : 360 ≤ ((we.toMinutes : Int) - (ws.toMinutes : Int))) :
    ∃ b1 b2 : Time, calculate_break_time ws we = (some b1, some b2)
      ∧ validate_times ws (some b1) (some b2) we = (true, "")
      ∧ ws < b1 ∧ b1 < b2 ∧ b2 < we := by
  have hwe := we.toMinutes_lt_1440
  simp only [calculate_break_time]
  rw [dif_neg (by omega)]
  refine ⟨_, _, rfl, ?_, ?_, ?_, ?_⟩
  · apply validate_times_ok <;> simp only [Time.toMinutes] at h hwe ⊢ <;> omega
  · rw [Time.lt_def]
    simp only [Time.toMinutes] at h hwe ⊢
    omega
  · rw [Time.lt_def]
    simp only [Time.toMinutes] at h hwe ⊢
    omega
  · rw [Time.lt_def]
    simp only [Time.toMinutes] at h hwe ⊢
    omega

/-- C3: every failing `save_entry` call — validation failure, empty or
invalid location list, or a constraint violation inside the transaction —
leaves the store exactly as it was: no partial entry update and no partial
location-sequence rows are observable. -/
theorem save_entry_failure_rolls_back (u : Nat) (st et : Time)
    (bs be : Option Time) (ids : List Nat) (db : DB)
    (h : (save_entry u st et bs be ids db).1.1 = false) :
    (save_entry u st et bs be ids db).2 = db := by
  unfold save_entry at h ⊢
  split_ifs at h ⊢
  · rfl
  · rfl
  · rfl
  · rcases hfind : db.daily_entries.find? (fun r =>
        r.user_id == u && r.entry_date == db.today) with _ | old
    · simp only [hfind] at h ⊢
      rcases hins : insert_daily_locations db.next_entry_id ids 1
          (db.daily_locations.filter fun r => r.entry_id != db.next_entry_id)
        with msg | rows
      · simp only [hins]
      · simp only [hins] at h
        simp at h
    · simp only [hfind] at h ⊢
      rcases hins : insert_daily_locations old.id ids 1
          (db.daily_locations.filter fun r => r.entry_id != old.id)
        with msg | rows
      · simp only [hins]
      · simp only [hins] at h
        simp at h

/-- Witness for C3: a call failing time validation leaves the store as is. -/
theorem save_entry_failure_rolls_back_witness :
    (save_entry 7 t1700 t0800 none none [3] db4).2 = db4 :=
  save_entry_failure_rolls_back 7 t1700 t0800 none none [3] db4 (by decide)

/-- Counterexample to C7 as stated: with an empty location list but invalid
times (17:00 start, 08:00 end), `save_entry` reports the time-validation
reason, not the empty-locations reason — validation runs first. -/
theorem save_entry_empty_locations_counterexample :
    save_entry 7 t1700 t0800 none none [] db0
      = ((false, "Work start time must be before work end time"), db0)
  ∧ "Work start time must be before work end time"
      ≠ "At least one location must be selected" := by
  constructor
  · decide
  · decide

/-- C7 (amended): whenever the time arguments pass validation, `save_entry`
with an empty location id list fails with the empty-locations reason before
any storage mutation, leaving every pre-existing entry untouched. -/
theorem save_entry_empty_locations (u : Nat) (st et : Time)
    (bs be : Option Time) (db : DB)
    (hv : (validate_times st bs be et).1 = true) :
    save_entry u st et bs be [] db
      = ((false, "At least one location must be selected"), db) := by
  unfold save_entry
  rw [if_neg (by simp [hv]), if_pos rfl]

/-- Witness for C7 with valid times 08:00-17:00 on the empty store. -/
theorem save_entry_empty_locations_witness :
    save_entry 7 t0800 t1700 none none [] db0
      = ((false, "At least one location must be selected"), db0) :=
  save_entry_empty_locations 7 t0800 t1700 none none db0 (by decide)

/-- Counterexample to C4 as stated: `save_entry` for user 7 with
`location_ids = [3, 5, 3]` (3 and 5 valid active locations) fails at the
pre-transaction verification — `COUNT(*)` over `id IN (3,5,3)` counts the two
matching table rows, `2 ≠ 3` — with the invalid-locations reason, never
reaching the sequence-insert loop, so no position/uniqueness collision message
is produced and the store is untouched. -/
theorem save_entry_duplicate_ids_counterexample :
    save_entry 7 t0800 t1700 none none [3, 5, 3] db4
      = ((false, "One or more selected locations are inactive or do not exist"),
         db4)
  ∧ "One or more selected locations are inactive or do not exist"
      ≠ "Location sequence order 1 is already used"
  ∧ "One or more selected locations are inactive or do not exist"
      ≠ "Location sequence order 2 is already used"
  ∧ "One or more selected locations are inactive or do not exist"
      ≠ "Location sequence order 3 is already used" := by
  refine ⟨by decide, by decide, by decide, by decide⟩

/-- C4 (amended): a `location_ids` list containing a duplicate, all of whose
ids exist as active locations (table ids being unique), makes `save_entry`
fail before the transaction with the invalid-locations reason — SQL `IN`
deduplicates, so the row count falls short of the list length — rather than
silently collapsing the duplicates; the store is unchanged. -/
theorem save_entry_duplicate_ids_fail (u : Nat) (st et : Time)
    (bs be : Option Time) (ids : List Nat) (db : DB)
    (hw : (db.locations.map (fun r => r.id)).Nodup)
    (hdup : ¬ ids.Nodup)
    (hv : (validate_times st bs be et).1 = true) :
    save_entry u st et bs be ids db
      = ((false, "One or more selected locations are inactive or do not exist"),
         db) := by
  have hne : ids ≠ [] := by
    rintro rfl
    exact hdup List.nodup_nil
  have hsub : ((db.locations.filter fun r =>
      ids.contains r.id && r.active).map (fun r => r.id)).Nodup :=
    ((List.filter_sublist db.locations).map (fun r => r.id)).nodup hw
  have hsubset : ((db.locations.filter fun r =>
      ids.contains r.id && r.active).map (fun r => r.id)) ⊆ ids.dedup := by
    intro x hx
    rw [List.mem_map] at hx
    obtain ⟨r, hr, rfl⟩ := hx
    rw [List.mem_filter] at hr
    have := hr.2
    rw [List.mem_dedup]
    have hc : ids.contains r.id = true := by
      cases hcc : ids.contains r.id <;> simp_all
    simpa using hc
  have hle := (hsub.subperm hsubset).length_le
  have hdlt : ids.dedup.length < ids.length := by
    have hsb := ids.dedup_sublist
    rcases Nat.lt_or_ge ids.dedup.length ids.length with hlt | hge
    · exact hlt
    · exfalso
      have heq : ids.dedup = ids :=
        hsb.eq_of_length (Nat.le_antisymm hsb.length_le hge)
      exact hdup (heq ▸ ids.nodup_dedup)
  have hcount : (db.locations.filter fun r =>
      ids.contains r.id && r.active).length ≠ ids.length := by
    rw [← List.length_map _ (fun r => r.id)]
    omega
  unfold save_entry
  rw [if_neg (by simp [hv]), if_neg hne, if_pos hcount]

/-- Witness for C4's amended statement at the concrete duplicated list. -/
theorem save_entry_duplicate_ids_fail_witness :
    save_entry 7 t0800 t1700 none none [3, 5, 3] db4
      = ((false, "One or more selected locations are inactive or do not exist"),
         db4) :=
  save_entry_duplicate_ids_fail 7 t0800 t1700 none none [3, 5, 3] db4
    (by decide) (by decide) (by decide)

/-- Witness for C10 at 08:00-17:00. -/
theorem break_suggestion_passes_validation_witness :
    (360 : Int) ≤ ((t1700.toMinutes : Int) - (t0800.toMinutes : Int))
  ∧ ∃ b1 b2 : Time, calculate_break_time t0800 t1700 = (some b1, some b2)
      ∧ validate_times t0800 (some b1) (some b2) t1700 = (true, "")
      ∧ t0800 < b1 ∧ b1 < b2 ∧ b2 < t1700 :=
  ⟨by decide, break_suggestion_passes_validation t0800 t1700 (by decide)⟩

/-- Helper: a successful `add_location` call appends exactly one active row
with the sanitized name and the next autoincrement id. -/
theorem add_location_success_state (u : Nat) (n : String) (a : Option String)
    (db : DB) (h : (add_location u n a db).1.1 = true) :
    (add_location u n a db).2
      = { db with
          locations := db.locations
            ++ [⟨db.next_location_id, u, sanitize_input n 50,
                 a.map (fun s => sanitize_input s 100), true⟩],
          next_location_id := db.next_location_id + 1 } := by
  unfold add_location at h ⊢
  split_ifs at h ⊢
  all_goals simp_all

/-- C6: after `add_location` succeeds with name "Kitchen", a second call for
the same user with "kitchen" fails with the duplicate-name reason — the check
compares `LOWER(name)` — and leaves the store, hence the user's
active-location count, unchanged. -/
theorem add_location_case_insensitive_duplicate (u : Nat) (db : DB)
    (h : (add_location u "Kitchen" none db).1.1 = true) :
    (add_location u "kitchen" none ((add_location u "Kitchen" none db).2)).1
      = (false, "Location \x27kitchen\x27 already exists")
  ∧ (add_location u "kitchen" none ((add_location u "Kitchen" none db).2)).2
      = (add_location u "Kitchen" none db).2 := by
  rw [add_location_success_state u "Kitchen" none db h]
  have hany : ((db.locations
      ++ [(⟨db.next_location_id, u, sanitize_input "Kitchen" 50,
            Option.map (fun s => sanitize_input s 100) none, true⟩
           : LocationRow)]).any fun r =>
        r.user_id == u
          && sqlLower r.name == sqlLower (sanitize_input "kitchen" 50)
          && r.active) = true := by
    refine List.any_eq_true.mpr
      ⟨(⟨db.next_location_id, u, sanitize_input "Kitchen" 50,
         Option.map (fun s => sanitize_input s 100) none, true⟩ : LocationRow),
       List.mem_append_right _ (List.mem_singleton_self _), ?_⟩
    simp only [beq_self_eq_true, Bool.true_and, Bool.and_true]
    decide
  constructor
  · unfold add_location
    rw [if_neg (by decide), if_neg (by decide), if_pos hany,
      show sanitize_input "kitchen" 50 = "kitchen" from by decide]
    show ((false : Bool), toString "Location \x27" ++ toString "kitchen"
        ++ toString "\x27 already exists")
      = ((false : Bool), "Location \x27kitchen\x27 already exists")
    decide
  · unfold add_location
    rw [if_neg (by decide), if_neg (by decide), if_pos hany]

/-- Witness for C6 on the empty store for user 7. -/
theorem add_location_case_insensitive_duplicate_witness :
    (add_location 7 "kitchen" none ((add_location 7 "Kitchen" none db0).2)).1
      = (false, "Location \x27kitchen\x27 already exists") :=
  (add_location_case_insensitive_duplicate 7 db0 (by decide)).1

/-- Helper: the sequence-insert loop succeeds whenever every pre-existing row
of the target entry has a position below the starting position. -/
theorem insert_daily_locations_ok (eid : Nat) (ids : List Nat) (k : Nat)
    (rows : List DailyLocationRow)
    (h : ∀ r ∈ rows, r.entry_id = eid → r.sequence_order < k) :
    ∃ out, insert_daily_locations eid ids k rows = Except.ok out := by
  induction ids generalizing k rows with
  | nil => exact ⟨rows, rfl⟩
  | cons i rest ih =>
    rw [insert_daily_locations, if_neg ?hc]
    case hc =>
      intro hc
      rw [List.any_eq_true] at hc
      obtain ⟨r, hr, hpr⟩ := hc
      simp only [Bool.and_eq_true, beq_iff_eq] at hpr
      have := h r hr hpr.1
      omega
    apply ih
    intro r hr heid
    rw [List.mem_append] at hr
    rcases hr with hr | hr
    · exact Nat.lt_succ_of_lt (h r hr heid)
    · rw [List.mem_singleton] at hr
      subst hr
      exact Nat.lt_succ_self k

/-- C9: the location-existence check of `save_entry` filters on id and active
only, never on owner: with distinct ids that all name some active location row
— regardless of which user owns it — and valid times, the save succeeds
rather than failing with the invalid-locations reason. -/
theorem save_entry_ignores_location_owner (u : Nat) (st et : Time)
    (bs be : Option Time) (ids : List Nat) (db : DB)
    (hw : (db.locations.map (fun r => r.id)).Nodup)
    (hids : ids.Nodup) (hne : ids ≠ [])
    (hv : (validate_times st bs be et).1 = true)
    (hall : ∀ i ∈ ids, ∃ r ∈ db.locations, r.id = i ∧ r.active = true) :
    (save_entry u st et bs be ids db).1 = (true, "Entry saved successfully")
    := by
  have hsubN : ((db.locations.filter fun r =>
      ids.contains r.id && r.active).map (fun r => r.id)).Nodup :=
    ((List.filter_sublist db.locations).map (fun r => r.id)).nodup hw
  have hmem : ∀ x, (x ∈ (db.locations.filter fun r =>
      ids.contains r.id && r.active).map (fun r => r.id)) ↔ x ∈ ids := by
    intro x
    constructor
    · intro hx
      rw [List.mem_map] at hx
      obtain ⟨r, hr, rfl⟩ := hx
      rw [List.mem_filter] at hr
      have hc : ids.contains r.id = true := by
        cases hcc : ids.contains r.id <;> simp_all
      simpa using hc
    · intro hx
      obtain ⟨r, hr, hid, hact⟩ := hall x hx
      rw [List.mem_map]
      refine ⟨r, ?_, hid⟩
      rw [List.mem_filter]
      refine ⟨hr, ?_⟩
      have hc : ids.contains r.id = true := by
        rw [hid]
        simpa using hx
      rw [hc, hact]
      rfl
  have hperm : ((db.locations.filter fun r =>
      ids.contains r.id && r.active).map (fun r => r.id)).Perm ids :=
    (hsubN.subperm fun x hx => (hmem x).mp hx).antisymm
      (hids.subperm fun x hx => (hmem x).mpr hx)
  have hlen : (db.locations.filter fun r =>
      ids.contains r.id && r.active).length = ids.length := by
    rw [← List.length_map _ (fun r => r.id)]
    exact hperm.length_eq
  unfold save_entry
  rw [if_neg (by simp [hv]), if_neg hne, if_neg (fun hcon => hcon hlen)]
  rcases hfind : db.daily_entries.find? (fun r =>
      r.user_id == u && r.entry_date == db.today) with _ | old
  · obtain ⟨out, hout⟩ := insert_daily_locations_ok db.next_entry_id ids 1
      (db.daily_locations.filter fun r => r.entry_id != db.next_entry_id)
      (by
        intro r hr heq
        rw [List.mem_filter] at hr
        simp [heq] at hr)
    simp only [hfind, hout]
  · obtain ⟨out, hout⟩ := insert_daily_locations_ok old.id ids 1
      (db.daily_locations.filter fun r => r.entry_id != old.id)
      (by
        intro r hr heq
        rw [List.mem_filter] at hr
        simp [heq] at hr)
    simp only [hfind, hout]

/-- A store whose only location (id 3, active) belongs to user 99. -/
def db9 : DB := ⟨[⟨3, 99, "Foreign", none, true⟩], [], [], 4, 1, 0, 0⟩

/-- Witness for C9: user 7 saves an entry citing user 99's active location and
succeeds. -/
theorem save_entry_ignores_location_owner_witness :
    (save_entry 7 t0800 t1700 none none [3] db9).1
      = (true, "Entry saved successfully") :=
  save_entry_ignores_location_owner 7 t0800 t1700 none none [3] db9
    (by decide) (by decide) (by decide) (by decide) (by decide)

/-- A store where user 7 has a stored entry for today with break fields set
(12:00-12:45) and an unsorted two-row location sequence. -/
def db5 : DB :=
  ⟨[⟨3, 7, "Site A", none, true⟩, ⟨5, 7, "Site B", none, true⟩],
   [⟨1, 7, 0, t0800, t1700, some t1200, some t1245, 0⟩],
   [⟨1, 5, 2⟩, ⟨1, 3, 1⟩], 6, 2, 0, 0⟩

/-- C5 (demonstrating the divergence): the stored `daily_entries` row for
user 7 today carries `break_start = 12:00` and `break_end = 12:45`, and the
location sequence is returned ordered by position, but the whole result of
`get_todays_entry` is a record containing only `id`, `start_time`, `end_time`
and `locations` — the break columns fetched by its SELECT are dropped, so no
caller (for example `main`, which reads `existing_entry.get('break_start')`)
can observe them. -/
theorem get_todays_entry_drops_break_fields :
    (db5.daily_entries.find? fun r => r.user_id == 7 && r.entry_date == db5.today)
        = some ⟨1, 7, 0, t0800, t1700, some t1200, some t1245, 0⟩
  ∧ get_todays_entry 7 db5
      = some ⟨1, t0800, t1700,
          [⟨3, "Site A", none, 1⟩, ⟨5, "Site B", none, 2⟩]⟩ :=
  ⟨by decide, by decide⟩

end PatiApp
